import Mathlib

/-!
Verification of the Secure Photo Downloader link-issuance handler
(`src/lambda/auth-handler.py`), as a shallow embedding in Lean.

The Python handler reads four configuration values from the environment,
optionally inspects the `code` query parameter (logging only), probes the
object store for the configured key, and either renders a download page
around a freshly signed URL (status 200 with cache-suppression headers) or
one of the error pages (status 404 / 500).  The two object-store calls
(`head_object`, `generate_presigned_url`) are external capabilities; they
are modelled by their visible outcomes: a `head_object` call either returns
normally, raises a `botocore` `ClientError` carrying a code and a message,
or raises some other exception, and likewise for the signing call (which on
normal return yields the presigned URL).
-/

namespace AuthHandler

/-- Outcome of `s3_client.head_object(Bucket=..., Key=...)`:
normal return, a raised `ClientError` (with `e.response['Error']['Code']`
and `...['Message']`), or any other raised exception (with `str(e)`). -/
inductive ProbeOutcome where
  | success : ProbeOutcome
  | clientError (code message : String) : ProbeOutcome
  | otherError (message : String) : ProbeOutcome
deriving DecidableEq

/-- Outcome of `s3_client.generate_presigned_url(...)`: the returned URL,
a raised `ClientError`, or any other raised exception. -/
inductive SignOutcome where
  | success (url : String) : SignOutcome
  | clientError (code message : String) : SignOutcome
  | otherError (message : String) : SignOutcome
deriving DecidableEq

/-- The object-store capability as seen by one invocation: the outcome of
the `head_object` probe, and the outcome of `generate_presigned_url` as a
function of the `ExpiresIn` argument the handler passes. -/
structure Store where
  headObject : ProbeOutcome
  generatePresignedUrl : Int → SignOutcome

/-- The inbound Lambda event: only `queryStringParameters` is inspected
(`event.get('queryStringParameters') or {}`). -/
structure Event where
  queryStringParameters : Option (List (String × String))

/-- Configuration resolved from the environment at the start of the
invocation (lines 26-29 of the handler). -/
structure Config where
  BUCKET_NAME : String
  OBJECT_KEY : String
  DOWNLOAD_EXPIRY : Int
  APP_NAME : String

/-- The handler's return value: `{'statusCode': ..., 'headers': ..., 'body': ...}`. -/
structure Response where
  statusCode : Int
  headers : List (String × String)
  body : String
deriving DecidableEq

/-- One invocation's observable result: the returned response, the
`ExpiresIn` arguments of the `generate_presigned_url` calls that were made,
and the `print` log lines. -/
structure HandlerOutput where
  response : Response
  signCalls : List Int
  logs : List String
deriving DecidableEq

/-- Python `dict.get`: first binding of the key, if any. -/
def dictGet (ps : List (String × String)) (k : String) : Option String :=
  (ps.find? (fun p => p.1 = k)).map Prod.snd

/-- Python `str.split(sep)` for a single-character separator, on the
character list of the string.  `''.split('/') = ['']`, and every separator
occurrence starts a new segment, so the result is never empty. -/
def splitChar (sep : Char) : List Char → List (List Char)
  | [] => [[]]
  | c :: rest =>
    match splitChar sep rest with
    | [] => [[]]
    | s :: ss => if c = sep then [] :: s :: ss else (c :: s) :: ss

/-- Python `object_key.split('/')[-1]` (line 108): the last segment of the split.
`splitChar` never returns `[]`, so the default of `getLastD` is unreachable. -/
def file_name_of (object_key : String) : String :=
  ⟨(splitChar '/' object_key.data).getLastD []⟩

/-- The interpolation `{'s' if expiry_hours != 1 else ''}` (line 249). -/
def pluralSuffix (expiry_hours : Int) : String :=
  if expiry_hours ≠ 1 then "s" else ""

/-- The `<strong>{expiry_hours} hour{'s' ...}</strong>` fragment of the
security notice (line 249). -/
def hoursHtml (expiry_hours : Int) : String :=
  "<strong>" ++ toString expiry_hours ++ " hour" ++ pluralSuffix expiry_hours ++ "</strong>"

/-- The meta-refresh redirect directive of the download page (line 117):
`<meta http-equiv="refresh" content="3;url={download_url}">`. -/
def metaRefreshTag (download_url : String) : String :=
  "<meta http-equiv=\x22refresh\x22 content=\x223;url=" ++ download_url ++ "\x22>"

/-- The opening tag of the visible download link (line 245):
`<a href="{download_url}" class="download-link">`. -/
def anchorTag (download_url : String) : String :=
  "<a href=\x22" ++ download_url ++ "\x22 class=\x22download-link\x22>"
def dpA : String :=
  "\n    <!DOCTYPE html>\n    <html lang=\x22en\x22>\n    <head>\n        <meta charset=\x22UTF-8\x22>\n        <meta name=\x22viewport\x22 content=\x22width=device-width, initial-scale=1.0\x22>\n        <title>Secure Download - "

def dpB : String :=
  "</title>\n        "

def dpC : String :=
  "\n        <style>\n            body \x7b \n                font-family: \x27Segoe UI\x27, Tahoma, Geneva, Verdana, sans-serif; \n                text-align: center; \n                margin: 0;\n                padding: 20px;\n                background: linear-gradient(135deg, #667eea 0%, #764ba2 100%);\n                color: white;\n                min-height: 100vh;\n                display: flex;\n                align-items: center;\n                justify-content: center;\n            \x7d\n            .container \x7b \n                max-width: 600px; \n                background: rgba(255, 255, 255, 0.1);\n                backdrop-filter: blur(10px);\n                border-radius: 20px;\n                padding: 40px;\n                box-shadow: 0 8px 32px rgba(0, 0, 0, 0.1);\n                border: 1px solid rgba(255, 255, 255, 0.2);\n            \x7d\n            .success \x7b \n                color: #4CAF50; \n                font-size: 4em;\n                margin-bottom: 20px;\n                animation: pulse 2s infinite;\n            \x7d\n            @keyframes pulse \x7b\n                0% \x7b transform: scale(1); \x7d\n                50% \x7b transform: scale(1.1); \x7d\n                100% \x7b transform: scale(1); \x7d\n            \x7d\n            h1 \x7b\n                margin: 20px 0;\n                font-size: 2em;\n                font-weight: 300;\n            \x7d\n            .app-name \x7b\n                font-size: 0.8em;\n                opacity: 0.8;\n                margin-bottom: 30px;\n            \x7d\n            p \x7b\n                font-size: 1.1em;\n                line-height: 1.6;\n                margin: 15px 0;\n            \x7d\n            .download-link \x7b \n                display: inline-block; \n                background: linear-gradient(45deg, #4CAF50, #45a049);\n                color: white; \n                padding: 15px 30px; \n                text-decoration: none; \n                border-radius: 50px; \n                margin: 20px 0;\n                font-weight: bold;\n                font-size: 1.1em;\n                transition: all 0.3s ease;\n                box-shadow: 0 4px 15px rgba(76, 175, 80, 0.3);\n            \x7d\n            .download-link:hover \x7b\n                transform: translateY(-2px);\n                box-shadow: 0 6px 20px rgba(76, 175, 80, 0.4);\n            \x7d\n            .spinner \x7b\n                border: 3px solid rgba(255, 255, 255, 0.3);\n                border-radius: 50%;\n                border-top: 3px solid white;\n                width: 40px;\n                height: 40px;\n                animation: spin 1s linear infinite;\n                margin: 20px auto;\n            \x7d\n            @keyframes spin \x7b\n                0% \x7b transform: rotate(0deg); \x7d\n                100% \x7b transform: rotate(360deg); \x7d\n            \x7d\n            .info \x7b\n                background: rgba(255, 255, 255, 0.1);\n                border-radius: 15px;\n                padding: 20px;\n                margin-top: 30px;\n                font-size: 0.95em;\n                border: 1px solid rgba(255, 255, 255, 0.2);\n            \x7d\n            .file-info \x7b\n                background: rgba(255, 255, 255, 0.05);\n                border-radius: 10px;\n                padding: 15px;\n                margin: 20px 0;\n                font-family: monospace;\n            \x7d\n            .countdown \x7b\n                font-size: 1.2em;\n                font-weight: bold;\n                color: #4CAF50;\n            \x7d\n        </style>\n        <script>\n            let countdown = 3;\n            function updateCountdown() \x7b\n                const element = document.getElementById(\x27countdown\x27);\n                if (element) \x7b\n                    element.textContent = countdown;\n                    countdown--;\n                    if (countdown >= 0) \x7b\n                        setTimeout(updateCountdown, 1000);\n                    \x7d\n                \x7d\n            \x7d\n            window.onload = updateCountdown;\n        </script>\n    </head>\n    <body>\n        <div class=\x22container\x22>\n            <div class=\x22success\x22>\uF8FF\u00FC\u00EE\u00EA</div>\n            <div class=\x22app-name\x22>"

def dpD : String :=
  "</div>\n            <h1>Authentication Successful!</h1>\n            <div class=\x22spinner\x22></div>\n            <p>Your secure download will start automatically in <span id=\x22countdown\x22 class=\x22countdown\x22>3</span> seconds...</p>\n            \n            <div class=\x22file-info\x22>\n                <strong>\uF8FF\u00FC\u00EC\u00C5 File:</strong> "

def dpE : String :=
  "\n            </div>\n            \n            <p>If the download doesn\x27t start automatically, click the button below:</p>\n            "

def dpF : String :=
  "\uF8FF\u00FC\u00EC\u2022 Download Securely</a>\n            \n            <div class=\x22info\x22>\n                <p><strong>\uF8FF\u00FC\u00EE\u00ED Security Notice:</strong></p>\n                <p>This download link will expire in "

def dpG : String :=
  " for your security.</p>\n                <p>Please save the file to your device before the link expires.</p>\n                <p>This link is unique to your session and cannot be shared.</p>\n            </div>\n        </div>\n    </body>\n    </html>\n    "

def epA : String :=
  "\n    <!DOCTYPE html>\n    <html lang=\x22en\x22>\n    <head>\n        <meta charset=\x22UTF-8\x22>\n        <meta name=\x22viewport\x22 content=\x22width=device-width, initial-scale=1.0\x22>\n        <title>Download Error - "

def epB : String :=
  "</title>\n        <style>\n            body \x7b \n                font-family: \x27Segoe UI\x27, Tahoma, Geneva, Verdana, sans-serif; \n                text-align: center; \n                margin: 0;\n                padding: 20px;\n                background: linear-gradient(135deg, #ff6b6b 0%, #ee5a24 100%);\n                color: white;\n                min-height: 100vh;\n                display: flex;\n                align-items: center;\n                justify-content: center;\n            \x7d\n            .container \x7b \n                max-width: 600px; \n                background: rgba(255, 255, 255, 0.1);\n                backdrop-filter: blur(10px);\n                border-radius: 20px;\n                padding: 40px;\n                box-shadow: 0 8px 32px rgba(0, 0, 0, 0.1);\n                border: 1px solid rgba(255, 255, 255, 0.2);\n            \x7d\n            .error \x7b \n                color: #ff4757; \n                font-size: 4em;\n                margin-bottom: 20px;\n            \x7d\n            h1 \x7b\n                margin: 20px 0;\n                font-size: 2em;\n                font-weight: 300;\n            \x7d\n            .app-name \x7b\n                font-size: 0.8em;\n                opacity: 0.8;\n                margin-bottom: 30px;\n            \x7d\n            p \x7b\n                font-size: 1.1em;\n                line-height: 1.6;\n                margin: 15px 0;\n            \x7d\n            .error-details \x7b\n                background: rgba(255, 255, 255, 0.1);\n                border-radius: 15px;\n                padding: 20px;\n                margin: 20px 0;\n                font-family: monospace;\n                font-size: 0.9em;\n                text-align: left;\n                border: 1px solid rgba(255, 255, 255, 0.2);\n                word-break: break-word;\n            \x7d\n            .support-info \x7b\n                background: rgba(255, 255, 255, 0.1);\n                border-radius: 15px;\n                padding: 20px;\n                margin-top: 30px;\n                font-size: 0.95em;\n                border: 1px solid rgba(255, 255, 255, 0.2);\n            \x7d\n            .retry-button \x7b\n                display: inline-block;\n                background: linear-gradient(45deg, #3498db, #2980b9);\n                color: white;\n                padding: 12px 25px;\n                text-decoration: none;\n                border-radius: 25px;\n                margin: 15px 0;\n                font-weight: bold;\n                transition: all 0.3s ease;\n            \x7d\n            .retry-button:hover \x7b\n                transform: translateY(-2px);\n                box-shadow: 0 4px 15px rgba(52, 152, 219, 0.3);\n            \x7d\n        </style>\n    </head>\n    <body>\n        <div class=\x22container\x22>\n            <div class=\x22error\x22>\u201A\u00F6\u2020\u00D4\u220F\u00E8</div>\n            <div class=\x22app-name\x22>"

def epC : String :=
  "</div>\n            <h1>"

def epD : String :=
  "</h1>\n            <p>We\x27re sorry, but there was an error processing your secure download request.</p>\n            \n            <div class=\x22error-details\x22>\n                <strong>Error Details:</strong><br>\n                "

def epE : String :=
  "\n            </div>\n            \n            <a href=\x22javascript:window.location.reload();\x22 class=\x22retry-button\x22>\uF8FF\u00FC\u00EE\u00D1 Try Again</a>\n            \n            <div class=\x22support-info\x22>\n                <p><strong>\uF8FF\u00FC\u00DC\u00F2 Need Help?</strong></p>\n                <p>If this problem persists, please contact support with the error details above.</p>\n                <p>You can also try:</p>\n                <ul style=\x22text-align: left; display: inline-block;\x22>\n                    <li>Refreshing the page</li>\n                    <li>Signing in again</li>\n                    <li>Clearing your browser cache</li>\n                    <li>Trying a different browser</li>\n                </ul>\n            </div>\n        </div>\n    </body>\n    </html>\n    "

/-- Function `generate_download_page` (lines 105-256): the success-page f-string with
its interpolations `{app_name}`, `{download_url}`, `{app_name}`,
`{file_name}`, `{download_url}`, `{expiry_hours}`, and the plural suffix,
where `expiry_hours = expiry_seconds // 3600` (Python floor division) and
`file_name = object_key.split('/')[-1]`. -/
def generate_download_page (download_url : String) (expiry_seconds : Int)
    (app_name : String) (object_key : String) : String :=
  let expiry_hours := Int.fdiv expiry_seconds 3600
  let file_name := file_name_of object_key
  dpA ++ app_name ++ dpB ++ metaRefreshTag download_url ++ dpC ++ app_name
    ++ dpD ++ file_name ++ dpE ++ anchorTag download_url ++ dpF
    ++ hoursHtml expiry_hours ++ dpG

/-- Function `generate_error_page` (lines 258-373): the error-page f-string with its
interpolations `{app_name}`, `{app_name}`, `{error_title}`, `{error_details}`. -/
def generate_error_page (error_title error_details app_name : String) : String :=
  epA ++ app_name ++ epB ++ app_name ++ epC ++ error_title ++ epD ++ error_details ++ epE

/-- Headers of the success response (lines 78-83). -/
def successHeaders : List (String × String) :=
  [("Content-Type", "text/html"),
   ("Cache-Control", "no-cache, no-store, must-revalidate"),
   ("Pragma", "no-cache"),
   ("Expires", "0")]

/-- Headers of every non-200 response (lines 56, 94, 101). -/
def htmlHeaders : List (String × String) :=
  [("Content-Type", "text/html")]

/-- Error detail of the 404 page (line 59). -/
def notFoundDetails (object_key : String) : String :=
  "The requested file \x27" ++ object_key ++ "\x27 was not found. Please contact support."

/-- Function `lambda_handler` (lines 7-103) for a resolved configuration.  The
`try` body extracts the optional `code` query parameter (logging only),
probes the object with `head_object`, answering 404 when the probe raises a
`ClientError` with code `'404'` and re-raising any other probe error, then
calls `generate_presigned_url` and renders the download page.  The outer
`except ClientError` / `except Exception` clauses (lines 87-103) render the
AWS-error and system-error pages.  `json.dumps(event)` in the first log
line is not modelled. -/
def lambda_handler (event : Event) (cfg : Config) (store : Store) : HandlerOutput :=
  let query_params := event.queryStringParameters.getD []
  let auth_code := dictGet query_params "code"
  let authLog : String :=
    if (auth_code.getD "") ≠ "" then
      "Authorization code received: " ++ (auth_code.getD "").take 10 ++ "..."
    else
      "No authorization code - might be direct access"
  match store.headObject with
  | ProbeOutcome.success =>
    match store.generatePresignedUrl cfg.DOWNLOAD_EXPIRY with
    | SignOutcome.success url =>
      { response :=
          { statusCode := 200,
            headers := successHeaders,
            body := generate_download_page url cfg.DOWNLOAD_EXPIRY cfg.APP_NAME cfg.OBJECT_KEY },
        signCalls := [cfg.DOWNLOAD_EXPIRY],
        logs := ["Event received", authLog,
                 "Object " ++ cfg.OBJECT_KEY ++ " exists in bucket " ++ cfg.BUCKET_NAME,
                 "Generated pre-signed URL: " ++ url.take 50 ++ "..."] }
    | SignOutcome.clientError code msg =>
      { response :=
          { statusCode := 500,
            headers := htmlHeaders,
            body := generate_error_page ("AWS Error: " ++ code) msg cfg.APP_NAME },
        signCalls := [cfg.DOWNLOAD_EXPIRY],
        logs := ["Event received", authLog,
                 "Object " ++ cfg.OBJECT_KEY ++ " exists in bucket " ++ cfg.BUCKET_NAME,
                 "AWS Error"] }
    | SignOutcome.otherError msg =>
      { response :=
          { statusCode := 500,
            headers := htmlHeaders,
            body := generate_error_page "System Error" msg cfg.APP_NAME },
        signCalls := [cfg.DOWNLOAD_EXPIRY],
        logs := ["Event received", authLog,
                 "Object " ++ cfg.OBJECT_KEY ++ " exists in bucket " ++ cfg.BUCKET_NAME,
                 "General Error: " ++ msg] }
  | ProbeOutcome.clientError code msg =>
    if code = "404" then
      { response :=
          { statusCode := 404,
            headers := htmlHeaders,
            body := generate_error_page "File Not Found" (notFoundDetails cfg.OBJECT_KEY) cfg.APP_NAME },
        signCalls := [],
        logs := ["Event received", authLog,
                 "Object " ++ cfg.OBJECT_KEY ++ " not found in bucket " ++ cfg.BUCKET_NAME] }
    else
      -- `raise e` (line 64), caught by the outer `except ClientError` (line 87)
      { response :=
          { statusCode := 500,
            headers := htmlHeaders,
            body := generate_error_page ("AWS Error: " ++ code) msg cfg.APP_NAME },
        signCalls := [],
        logs := ["Event received", authLog, "AWS Error"] }
  | ProbeOutcome.otherError msg =>
    { response :=
        { statusCode := 500,
          headers := htmlHeaders,
          body := generate_error_page "System Error" msg cfg.APP_NAME },
      signCalls := [],
      logs := ["Event received", authLog, "General Error: " ++ msg] }

/-- Python `os.environ.get(key, default)`. -/
def osEnvironGet (env : List (String × String)) (k d : String) : String :=
  ((env.find? (fun p => p.1 = k)).map Prod.snd).getD d

/-- Digits (with Python's single-underscore grouping) after the first digit
of an integer literal; accumulates the value. -/
def pyIntDigits : List Char → Nat → Option Nat
  | [], acc => some acc
  | '_' :: c :: rest, acc =>
    if c.isDigit then pyIntDigits rest (acc * 10 + (c.toNat - 48)) else none
  | c :: rest, acc =>
    if c.isDigit then pyIntDigits rest (acc * 10 + (c.toNat - 48)) else none

/-- A nonempty digit sequence starting with a digit. -/
def pyIntBody (l : List Char) : Option Nat :=
  match l with
  | [] => none
  | c :: rest => if c.isDigit then pyIntDigits rest (c.toNat - 48) else none

/-- Python `int(s)` on a string (line 28): strip whitespace, allow a single
leading sign, then a decimal literal; `none` models the raised
`ValueError` (Unicode digits are not modelled). -/
def pythonInt (s : String) : Option Int :=
  let t := ((s.data.dropWhile Char.isWhitespace).reverse.dropWhile Char.isWhitespace).reverse
  match t with
  | '+' :: rest => (pyIntBody rest).map Int.ofNat
  | '-' :: rest => (pyIntBody rest).map (fun n => -(Int.ofNat n))
  | rest => (pyIntBody rest).map Int.ofNat

/-- Lines 26-29: configuration resolution from the environment, outside the
`try` block.  `int(...)` on a malformed `DOWNLOAD_EXPIRY` raises there. -/
def resolveConfig (env : List (String × String)) : Option Config :=
  (pythonInt (osEnvironGet env "DOWNLOAD_EXPIRY" "3600")).map fun n =>
    { BUCKET_NAME := osEnvironGet env "BUCKET_NAME" "secure-photo-downloads",
      OBJECT_KEY := osEnvironGet env "OBJECT_KEY" "photos/photos.zip",
      DOWNLOAD_EXPIRY := n,
      APP_NAME := osEnvironGet env "APP_NAME" "Secure Photo Downloader" }

/-- The whole Python function `lambda_handler`, environment included: when
`int(os.environ.get('DOWNLOAD_EXPIRY', '3600'))` raises, the `ValueError`
escapes to the caller (lines 26-29 precede the `try` block), modelled as
`Except.error`. -/
def lambda_handler_env (env : List (String × String)) (event : Event)
    (store : Store) : Except String HandlerOutput :=
  match resolveConfig env with
  | some cfg => Except.ok (lambda_handler event cfg store)
  | none =>
    Except.error ("ValueError: invalid literal for int() with base 10: \x27"
      ++ osEnvironGet env "DOWNLOAD_EXPIRY" "3600" ++ "\x27")

/-! ### Facts about `splitChar` and the displayed file name (claim C7) -/

theorem splitChar_ne_nil (sep : Char) (l : List Char) : splitChar sep l ≠ [] := by
  cases l with
  | nil => simp [splitChar]
  | cons c rest =>
    simp only [splitChar]
    rcases h : splitChar sep rest with _ | ⟨s, ss⟩
    · simp
    · by_cases hc : c = sep <;> simp [hc]

theorem splitChar_of_not_mem (sep : Char) (l : List Char) (h : sep ∉ l) :
    splitChar sep l = [l] := by
  induction l with
  | nil => rfl
  | cons c rest ih =>
    have hc : ¬ c = sep := fun e => h (e ▸ List.mem_cons_self c rest)
    have hr : sep ∉ rest := fun m => h (List.mem_cons_of_mem _ m)
    simp [splitChar, ih hr, hc]

theorem splitChar_of_mem (sep : Char) (l : List Char) (h : sep ∈ l) :
    ∃ s ss, splitChar sep l = s :: ss ∧ ss ≠ [] := by
  induction l with
  | nil => cases h
  | cons c rest ih =>
    by_cases hc : c = sep
    · rcases hs : splitChar sep rest with _ | ⟨s, ss⟩
      · exact absurd hs (splitChar_ne_nil sep rest)
      · exact ⟨[], s :: ss, by simp [splitChar, hs, hc], by simp⟩
    · have hm : sep ∈ rest := by
        rcases List.mem_cons.mp h with h1 | h1
        · exact absurd h1.symm hc
        · exact h1
      obtain ⟨s, ss, hs, hne⟩ := ih hm
      exact ⟨c :: s, ss, by simp [splitChar, hs, hc], hne⟩

/-- The last segment of a Python `split`. -/
def lastSeg (sep : Char) (l : List Char) : List Char :=
  (splitChar sep l).getLastD []

theorem file_name_of_eq_lastSeg (key : String) :
    (file_name_of key).data = lastSeg '/' key.data := rfl

theorem lastSeg_of_not_mem (sep : Char) (l : List Char) (h : sep ∉ l) :
    lastSeg sep l = l := by
  simp [lastSeg, splitChar_of_not_mem sep l h]

theorem lastSeg_cons (sep c : Char) (rest : List Char) :
    lastSeg sep (c :: rest) =
      if c = sep ∨ sep ∈ rest then lastSeg sep rest else c :: rest := by
  rcases hs : splitChar sep rest with _ | ⟨s, ss⟩
  · exact absurd hs (splitChar_ne_nil sep rest)
  · by_cases hc : c = sep
    · simp only [lastSeg, splitChar, hs, hc, if_pos rfl, true_or, if_pos]
      simp [List.getLastD_cons]
    · by_cases hm : sep ∈ rest
      · obtain ⟨s', ss', hs', hne⟩ := splitChar_of_mem sep rest hm
        rw [hs] at hs'
        injection hs' with h1 h2
        subst h2
        rcases ss with _ | ⟨a, t⟩
        · exact absurd rfl hne
        · simp only [lastSeg, splitChar, hs, hc, if_neg hc, hm, or_true, if_pos]
          simp [List.getLastD_cons]
      · have h0 := splitChar_of_not_mem sep rest hm
        rw [hs] at h0
        injection h0 with h1 h2
        simp [lastSeg, splitChar, hs, hc, hm, h1, h2]

theorem lastSeg_not_mem (sep : Char) (l : List Char) : sep ∉ lastSeg sep l := by
  induction l with
  | nil => simp [lastSeg, splitChar]
  | cons c rest ih =>
    rw [lastSeg_cons]
    by_cases h : c = sep ∨ sep ∈ rest
    · simpa [h] using ih
    · push_neg at h
      simp only [if_neg (by tauto : ¬ (c = sep ∨ sep ∈ rest))]
      intro hmem
      rcases List.mem_cons.mp hmem with h1 | h1
      · exact h.1 h1.symm
      · exact h.2 h1

theorem lastSeg_split (sep : Char) (l : List Char) (h : sep ∈ l) :
    ∃ p : List Char, l = p ++ sep :: lastSeg sep l := by
  induction l with
  | nil => cases h
  | cons c rest ih =>
    rw [lastSeg_cons]
    by_cases hm : sep ∈ rest
    · obtain ⟨p, hp⟩ := ih hm
      refine ⟨c :: p, ?_⟩
      simp only [if_pos (Or.inr hm)]
      rw [List.cons_append, ← hp]
    · have hc : c = sep := by
        rcases List.mem_cons.mp h with h1 | h1
        · exact h1.symm
        · exact absurd h1 hm
      refine ⟨[], ?_⟩
      simp [if_pos (Or.inl hc), lastSeg_of_not_mem sep rest hm, hc]

/-- C7: the displayed file name is the substring of the object key after its
final `/` (the whole key when there is no `/`): `file_name_of` contains no
slash, the key decomposes as `p ++ '/' :: file name` when it has a slash,
and equals the file name otherwise. -/
theorem C7_file_name_is_last_segment (key : String) :
    ('/' ∈ key.data →
       '/' ∉ (file_name_of key).data ∧
       ∃ p : List Char, key.data = p ++ '/' :: (file_name_of key).data) ∧
    ('/' ∉ key.data → file_name_of key = key) := by
  constructor
  · intro h
    rw [file_name_of_eq_lastSeg]
    exact ⟨lastSeg_not_mem '/' key.data, lastSeg_split '/' key.data h⟩
  · intro h
    rw [String.ext_iff, file_name_of_eq_lastSeg, lastSeg_of_not_mem '/' key.data h]

/-- C7 witness: at the key `"photos/photos.zip"` the displayed name is the
segment after the final slash, and at `"file.zip"` it is the key itself. -/
theorem C7_file_name_is_last_segment_witness :
    ('/' ∈ ("photos/photos.zip" : String).data ∧
      '/' ∉ (file_name_of "photos/photos.zip").data ∧
      ∃ p : List Char,
        ("photos/photos.zip" : String).data = p ++ '/' :: (file_name_of "photos/photos.zip").data) ∧
    ('/' ∉ ("file.zip" : String).data ∧ file_name_of "file.zip" = "file.zip") :=
  ⟨⟨by decide, ((C7_file_name_is_last_segment "photos/photos.zip").1 (by decide)).1,
     ((C7_file_name_is_last_segment "photos/photos.zip").1 (by decide)).2⟩,
   ⟨by decide, (C7_file_name_is_last_segment "file.zip").2 (by decide)⟩⟩

/-! ### Error responses (claims C2, C3, C10) -/

/-- C2: whenever the probe raises a `ClientError` with code `'404'`, the
handler returns status 404, the body is the Error Page rendering with title
`"File Not Found"` and detail naming the object key, and the body contains
the object key and the title. -/
theorem C2_not_found_response (event : Event) (cfg : Config) (store : Store)
    (msg : String) (hp : store.headObject = ProbeOutcome.clientError "404" msg) :
    (lambda_handler event cfg store).response.statusCode = 404 ∧
    (lambda_handler event cfg store).response.body =
      generate_error_page "File Not Found" (notFoundDetails cfg.OBJECT_KEY) cfg.APP_NAME ∧
    (∃ p s : String,
      (lambda_handler event cfg store).response.body = p ++ cfg.OBJECT_KEY ++ s) ∧
    (∃ p s : String,
      (lambda_handler event cfg store).response.body = p ++ "File Not Found" ++ s) := by
  obtain ⟨probe, sign⟩ := store
  change probe = _ at hp
  subst hp
  refine ⟨rfl, rfl, ?_, ?_⟩
  · refine ⟨epA ++ cfg.APP_NAME ++ epB ++ cfg.APP_NAME ++ epC ++ "File Not Found"
        ++ epD ++ "The requested file \x27",
      "\x27 was not found. Please contact support." ++ epE, ?_⟩
    show generate_error_page "File Not Found" (notFoundDetails cfg.OBJECT_KEY) cfg.APP_NAME = _
    rw [String.ext_iff]
    simp [generate_error_page, notFoundDetails, String.data_append]
  · refine ⟨epA ++ cfg.APP_NAME ++ epB ++ cfg.APP_NAME ++ epC,
      epD ++ notFoundDetails cfg.OBJECT_KEY ++ epE, ?_⟩
    show generate_error_page "File Not Found" (notFoundDetails cfg.OBJECT_KEY) cfg.APP_NAME = _
    rw [String.ext_iff]
    simp [generate_error_page, String.data_append]

/-- C2 witness: a concrete invocation whose probe reports the `'404'`
`ClientError`. -/
theorem C2_not_found_response_witness :
    (lambda_handler ⟨none⟩ ⟨"b", "photos/x.zip", 3600, "App"⟩
        ⟨ProbeOutcome.clientError "404" "Not Found", fun _ => SignOutcome.success "u"⟩).response.statusCode = 404 ∧
    (lambda_handler ⟨none⟩ ⟨"b", "photos/x.zip", 3600, "App"⟩
        ⟨ProbeOutcome.clientError "404" "Not Found", fun _ => SignOutcome.success "u"⟩).response.body =
      generate_error_page "File Not Found" (notFoundDetails "photos/x.zip") "App" ∧
    (∃ p s : String,
      (lambda_handler ⟨none⟩ ⟨"b", "photos/x.zip", 3600, "App"⟩
        ⟨ProbeOutcome.clientError "404" "Not Found", fun _ => SignOutcome.success "u"⟩).response.body
        = p ++ "photos/x.zip" ++ s) ∧
    (∃ p s : String,
      (lambda_handler ⟨none⟩ ⟨"b", "photos/x.zip", 3600, "App"⟩
        ⟨ProbeOutcome.clientError "404" "Not Found", fun _ => SignOutcome.success "u"⟩).response.body
        = p ++ "File Not Found" ++ s) :=
  C2_not_found_response ⟨none⟩ ⟨"b", "photos/x.zip", 3600, "App"⟩
    ⟨ProbeOutcome.clientError "404" "Not Found", fun _ => SignOutcome.success "u"⟩ "Not Found" rfl

/-- C3: whenever the probe raises a `ClientError` whose code is not
`'404'`, or the probe succeeds and the signing call raises a `ClientError`,
the handler returns status 500, the body is the Error Page rendering whose
title is `"AWS Error: "` followed by the upstream code, and the body
contains the fault's message verbatim and the title. -/
theorem C3_store_fault_response (event : Event) (cfg : Config) (store : Store)
    (code msg : String)
    (h : (store.headObject = ProbeOutcome.clientError code msg ∧ code ≠ "404") ∨
         (store.headObject = ProbeOutcome.success ∧
           store.generatePresignedUrl cfg.DOWNLOAD_EXPIRY = SignOutcome.clientError code msg)) :
    (lambda_handler event cfg store).response.statusCode = 500 ∧
    (lambda_handler event cfg store).response.body =
      generate_error_page ("AWS Error: " ++ code) msg cfg.APP_NAME ∧
    (∃ p s : String,
      (lambda_handler event cfg store).response.body = p ++ msg ++ s) ∧
    (∃ p s : String,
      (lambda_handler event cfg store).response.body = p ++ ("AWS Error: " ++ code) ++ s) := by
  obtain ⟨probe, sign⟩ := store
  have hbody : (lambda_handler event cfg ⟨probe, sign⟩).response.statusCode = 500 ∧
      (lambda_handler event cfg ⟨probe, sign⟩).response.body =
        generate_error_page ("AWS Error: " ++ code) msg cfg.APP_NAME := by
    rcases h with ⟨hp, hc⟩ | ⟨hp, hs⟩
    · change probe = _ at hp
      subst hp
      constructor
      · simp [lambda_handler, hc]
      · simp [lambda_handler, hc]
    · change probe = _ at hp
      change sign _ = _ at hs
      subst hp
      constructor
      · simp [lambda_handler, hs]
      · simp [lambda_handler, hs]
  refine ⟨hbody.1, hbody.2, ?_, ?_⟩
  · refine ⟨epA ++ cfg.APP_NAME ++ epB ++ cfg.APP_NAME ++ epC ++ ("AWS Error: " ++ code) ++ epD,
      epE, ?_⟩
    rw [hbody.2, String.ext_iff]
    simp [generate_error_page, String.data_append]
  · refine ⟨epA ++ cfg.APP_NAME ++ epB ++ cfg.APP_NAME ++ epC, epD ++ msg ++ epE, ?_⟩
    rw [hbody.2, String.ext_iff]
    simp [generate_error_page, String.data_append]

/-- C3 witness: a probe fault with code `"AccessDenied"` and message
`"denied"` yields the 500 store-fault page. -/
theorem C3_store_fault_response_witness :
    (lambda_handler ⟨none⟩ ⟨"b", "photos/x.zip", 3600, "App"⟩
        ⟨ProbeOutcome.clientError "AccessDenied" "denied", fun _ => SignOutcome.success "u"⟩).response.statusCode = 500 ∧
    (lambda_handler ⟨none⟩ ⟨"b", "photos/x.zip", 3600, "App"⟩
        ⟨ProbeOutcome.clientError "AccessDenied" "denied", fun _ => SignOutcome.success "u"⟩).response.body =
      generate_error_page ("AWS Error: " ++ "AccessDenied") "denied" "App" ∧
    (∃ p s : String,
      (lambda_handler ⟨none⟩ ⟨"b", "photos/x.zip", 3600, "App"⟩
        ⟨ProbeOutcome.clientError "AccessDenied" "denied", fun _ => SignOutcome.success "u"⟩).response.body
        = p ++ "denied" ++ s) ∧
    (∃ p s : String,
      (lambda_handler ⟨none⟩ ⟨"b", "photos/x.zip", 3600, "App"⟩
        ⟨ProbeOutcome.clientError "AccessDenied" "denied", fun _ => SignOutcome.success "u"⟩).response.body
        = p ++ ("AWS Error: " ++ "AccessDenied") ++ s) :=
  C3_store_fault_response ⟨none⟩ ⟨"b", "photos/x.zip", 3600, "App"⟩
    ⟨ProbeOutcome.clientError "AccessDenied" "denied", fun _ => SignOutcome.success "u"⟩
    "AccessDenied" "denied" (Or.inl ⟨rfl, by decide⟩)

/-- C10: a probe `ClientError` is classified as not-found exactly when its
code string is `'404'`: that code yields the 404 File-Not-Found page, and
any other code (for example `'NoSuchKey'`) is re-raised and yields the 500
`AWS Error` page instead. -/
theorem C10_probe_404_classification (event : Event) (cfg : Config) (store : Store)
    (code msg : String) (hp : store.headObject = ProbeOutcome.clientError code msg) :
    (code = "404" →
      (lambda_handler event cfg store).response.statusCode = 404 ∧
      (lambda_handler event cfg store).response.body =
        generate_error_page "File Not Found" (notFoundDetails cfg.OBJECT_KEY) cfg.APP_NAME) ∧
    (code ≠ "404" →
      (lambda_handler event cfg store).response.statusCode = 500 ∧
      (lambda_handler event cfg store).response.body =
        generate_error_page ("AWS Error: " ++ code) msg cfg.APP_NAME) := by
  obtain ⟨probe, sign⟩ := store
  change probe = _ at hp
  subst hp
  constructor
  · intro hc
    subst hc
    exact ⟨rfl, rfl⟩
  · intro hc
    constructor
    · simp [lambda_handler, hc]
    · simp [lambda_handler, hc]

/-- C10 witness: the absence-style code `'NoSuchKey'` is not classified as
not-found: it produces the 500 page, while `'404'` produces the 404 page. -/
theorem C10_probe_404_classification_witness :
    ((lambda_handler ⟨none⟩ ⟨"b", "k", 3600, "App"⟩
        ⟨ProbeOutcome.clientError "NoSuchKey" "absent", fun _ => SignOutcome.success "u"⟩).response.statusCode = 500 ∧
     (lambda_handler ⟨none⟩ ⟨"b", "k", 3600, "App"⟩
        ⟨ProbeOutcome.clientError "NoSuchKey" "absent", fun _ => SignOutcome.success "u"⟩).response.body =
       generate_error_page ("AWS Error: " ++ "NoSuchKey") "absent" "App") ∧
    ((lambda_handler ⟨none⟩ ⟨"b", "k", 3600, "App"⟩
        ⟨ProbeOutcome.clientError "404" "absent", fun _ => SignOutcome.success "u"⟩).response.statusCode = 404 ∧
     (lambda_handler ⟨none⟩ ⟨"b", "k", 3600, "App"⟩
        ⟨ProbeOutcome.clientError "404" "absent", fun _ => SignOutcome.success "u"⟩).response.body =
       generate_error_page "File Not Found" (notFoundDetails "k") "App") :=
  ⟨(C10_probe_404_classification ⟨none⟩ ⟨"b", "k", 3600, "App"⟩
      ⟨ProbeOutcome.clientError "NoSuchKey" "absent", fun _ => SignOutcome.success "u"⟩
      "NoSuchKey" "absent" rfl).2 (by decide),
   (C10_probe_404_classification ⟨none⟩ ⟨"b", "k", 3600, "App"⟩
      ⟨ProbeOutcome.clientError "404" "absent", fun _ => SignOutcome.success "u"⟩
      "404" "absent" rfl).1 rfl⟩

/-! ### Sign-call gating and auth-code noninterference (claims C6, C9, C5) -/

/-- C6: unless the probe returned normally (the object exists), the signing
capability is never called, and the response does not depend on the signing
capability at all (so no signed link can be embedded in it). -/
theorem C6_sign_gated_on_probe (event : Event) (cfg : Config)
    (probe : ProbeOutcome) (sign : Int → SignOutcome)
    (hne : probe ≠ ProbeOutcome.success) :
    (lambda_handler event cfg ⟨probe, sign⟩).signCalls = [] ∧
    ∀ sign2 : Int → SignOutcome,
      (lambda_handler event cfg ⟨probe, sign⟩).response =
        (lambda_handler event cfg ⟨probe, sign2⟩).response := by
  cases probe with
  | success => exact absurd rfl hne
  | clientError code msg =>
    constructor
    · by_cases hc : code = "404" <;> simp [lambda_handler, hc]
    · intro sign2
      by_cases hc : code = "404" <;> simp [lambda_handler, hc]
  | otherError msg => exact ⟨rfl, fun _ => rfl⟩

/-- C6 witness: with a not-found probe, no sign call happens and the
response is the same for two different signing capabilities. -/
theorem C6_sign_gated_on_probe_witness :
    (lambda_handler ⟨none⟩ ⟨"b", "k", 3600, "App"⟩
      ⟨ProbeOutcome.clientError "404" "m", fun _ => SignOutcome.success "u"⟩).signCalls = [] ∧
    (lambda_handler ⟨none⟩ ⟨"b", "k", 3600, "App"⟩
      ⟨ProbeOutcome.clientError "404" "m", fun _ => SignOutcome.success "u"⟩).response =
    (lambda_handler ⟨none⟩ ⟨"b", "k", 3600, "App"⟩
      ⟨ProbeOutcome.clientError "404" "m", fun _ => SignOutcome.otherError "boom"⟩).response :=
  ⟨(C6_sign_gated_on_probe ⟨none⟩ ⟨"b", "k", 3600, "App"⟩
      (ProbeOutcome.clientError "404" "m") (fun _ => SignOutcome.success "u") (by decide)).1,
   (C6_sign_gated_on_probe ⟨none⟩ ⟨"b", "k", 3600, "App"⟩
      (ProbeOutcome.clientError "404" "m") (fun _ => SignOutcome.success "u") (by decide)).2
     (fun _ => SignOutcome.otherError "boom")⟩

/-- C9: the `code` query parameter is observational only: two invocations
with the same configuration and store behaviour produce identical responses
whatever their events (in particular whatever the presence, absence or
value of `code`); only the log lines can differ. -/
theorem C9_auth_code_noninterference (cfg : Config) (store : Store) (ev1 ev2 : Event) :
    (lambda_handler ev1 cfg store).response = (lambda_handler ev2 cfg store).response := by
  obtain ⟨probe, sign⟩ := store
  cases probe with
  | success =>
    cases h : sign cfg.DOWNLOAD_EXPIRY <;> simp [lambda_handler, h]
  | clientError code msg =>
    by_cases hc : code = "404" <;> simp [lambda_handler, hc]
  | otherError msg => rfl

/-- C5 counterexample: with the non-positive configured expiry `-3600` the
handler performs no guard: the probe-success path proceeds, the signing
capability is called with `-3600` itself, the response is the ordinary 200
success response, and the rendered body displays the floor-divided hours
(`-1 hours`) of the non-positive value. -/
theorem C5_counterexample :
    (lambda_handler ⟨none⟩ ⟨"secure-photo-downloads", "photos/photos.zip", -3600, "Secure Photo Downloader"⟩
        ⟨ProbeOutcome.success, fun _ => SignOutcome.success "https://signed/url"⟩).signCalls = [-3600] ∧
    (lambda_handler ⟨none⟩ ⟨"secure-photo-downloads", "photos/photos.zip", -3600, "Secure Photo Downloader"⟩
        ⟨ProbeOutcome.success, fun _ => SignOutcome.success "https://signed/url"⟩).response.statusCode = 200 ∧
    hoursHtml (Int.fdiv (-3600) 3600) = "<strong>-1 hours</strong>" ∧
    (∃ p s : String,
      (lambda_handler ⟨none⟩ ⟨"secure-photo-downloads", "photos/photos.zip", -3600, "Secure Photo Downloader"⟩
        ⟨ProbeOutcome.success, fun _ => SignOutcome.success "https://signed/url"⟩).response.body
        = p ++ "<strong>-1 hours</strong>" ++ s) := by
  refine ⟨rfl, rfl, by decide, ?_⟩
  refine ⟨dpA ++ "Secure Photo Downloader" ++ dpB ++ metaRefreshTag "https://signed/url"
      ++ dpC ++ "Secure Photo Downloader" ++ dpD ++ file_name_of "photos/photos.zip"
      ++ dpE ++ anchorTag "https://signed/url" ++ dpF, dpG, ?_⟩
  show generate_download_page "https://signed/url" (-3600) "Secure Photo Downloader" "photos/photos.zip" = _
  have h : hoursHtml (Int.fdiv (-3600) 3600) = "<strong>-1 hours</strong>" := by decide
  rw [String.ext_iff]
  simp only [generate_download_page]
  rw [h]

/-- C5 amended: the implementation does not guard the configured expiry at
all: whenever the probe succeeds, the configured value — positive or not —
is passed unchanged as the `ExpiresIn` argument of the signing call, and on
signing success its floor-divided hours are rendered into the page. -/
theorem C5_no_guard_passthrough (event : Event) (cfg : Config) (store : Store)
    (hp : store.headObject = ProbeOutcome.success) :
    (lambda_handler event cfg store).signCalls = [cfg.DOWNLOAD_EXPIRY] ∧
    ∀ url : String, store.generatePresignedUrl cfg.DOWNLOAD_EXPIRY = SignOutcome.success url →
      ∃ p s : String,
        (lambda_handler event cfg store).response.body
          = p ++ hoursHtml (Int.fdiv cfg.DOWNLOAD_EXPIRY 3600) ++ s := by
  obtain ⟨probe, sign⟩ := store
  change probe = _ at hp
  subst hp
  constructor
  · cases h : sign cfg.DOWNLOAD_EXPIRY <;> simp [lambda_handler, h]
  · intro url hs
    change sign _ = _ at hs
    refine ⟨dpA ++ cfg.APP_NAME ++ dpB ++ metaRefreshTag url ++ dpC ++ cfg.APP_NAME
        ++ dpD ++ file_name_of cfg.OBJECT_KEY ++ dpE ++ anchorTag url ++ dpF, dpG, ?_⟩
    have hb : (lambda_handler event cfg ⟨ProbeOutcome.success, sign⟩).response.body =
        generate_download_page url cfg.DOWNLOAD_EXPIRY cfg.APP_NAME cfg.OBJECT_KEY := by
      simp [lambda_handler, hs]
    rw [hb, String.ext_iff]
    simp [generate_download_page, String.data_append]

/-- C5 amended witness: at the concrete expiry `-3600` the sign call
receives `-3600` and the page renders its hours. -/
theorem C5_no_guard_passthrough_witness :
    (lambda_handler ⟨none⟩ ⟨"b", "k", -3600, "App"⟩
      ⟨ProbeOutcome.success, fun _ => SignOutcome.success "u"⟩).signCalls = [-3600] ∧
    (∃ p s : String,
      (lambda_handler ⟨none⟩ ⟨"b", "k", -3600, "App"⟩
        ⟨ProbeOutcome.success, fun _ => SignOutcome.success "u"⟩).response.body
        = p ++ hoursHtml (Int.fdiv (-3600) 3600) ++ s) :=
  ⟨(C5_no_guard_passthrough ⟨none⟩ ⟨"b", "k", -3600, "App"⟩
      ⟨ProbeOutcome.success, fun _ => SignOutcome.success "u"⟩ rfl).1,
   (C5_no_guard_passthrough ⟨none⟩ ⟨"b", "k", -3600, "App"⟩
      ⟨ProbeOutcome.success, fun _ => SignOutcome.success "u"⟩ rfl).2 "u" rfl⟩

/-! ### Totality and well-formedness (claim C4) -/

/-- A fully populated response: one of the three status codes, the
`Content-Type: text/html` header present, nonempty headers and body. -/
def wellFormedResponse (r : Response) : Prop :=
  (r.statusCode = 200 ∨ r.statusCode = 404 ∨ r.statusCode = 500) ∧
  ("Content-Type", "text/html") ∈ r.headers ∧
  r.headers ≠ [] ∧
  r.body ≠ ""

theorem generate_error_page_ne_empty (t d a : String) : generate_error_page t d a ≠ "" := by
  have h : epA.data ≠ [] := by decide
  rw [Ne, String.ext_iff]
  simp only [generate_error_page, String.data_append, List.append_assoc]
  intro He
  exact h (List.append_eq_nil.mp He).1

theorem generate_download_page_ne_empty (u : String) (e : Int) (a k : String) :
    generate_download_page u e a k ≠ "" := by
  have h : dpA.data ≠ [] := by decide
  rw [Ne, String.ext_iff]
  simp only [generate_download_page, String.data_append, List.append_assoc]
  intro He
  exact h (List.append_eq_nil.mp He).1

theorem lambda_handler_wellformed (event : Event) (cfg : Config) (store : Store) :
    wellFormedResponse (lambda_handler event cfg store).response := by
  obtain ⟨probe, sign⟩ := store
  cases probe with
  | success =>
    cases h : sign cfg.DOWNLOAD_EXPIRY with
    | success url =>
      exact ⟨by simp [lambda_handler, h], by simp [lambda_handler, h, successHeaders],
        by simp [lambda_handler, h, successHeaders],
        by simp only [lambda_handler, h]; exact generate_download_page_ne_empty _ _ _ _⟩
    | clientError code msg =>
      exact ⟨by simp [lambda_handler, h], by simp [lambda_handler, h, htmlHeaders],
        by simp [lambda_handler, h, htmlHeaders],
        by simp only [lambda_handler, h]; exact generate_error_page_ne_empty _ _ _⟩
    | otherError msg =>
      exact ⟨by simp [lambda_handler, h], by simp [lambda_handler, h, htmlHeaders],
        by simp [lambda_handler, h, htmlHeaders],
        by simp only [lambda_handler, h]; exact generate_error_page_ne_empty _ _ _⟩
  | clientError code msg =>
    by_cases hc : code = "404"
    · exact ⟨by simp [lambda_handler, hc], by simp [lambda_handler, hc, htmlHeaders],
        by simp [lambda_handler, hc, htmlHeaders],
        by simp only [lambda_handler, hc, if_pos]; exact generate_error_page_ne_empty _ _ _⟩
    · exact ⟨by simp [lambda_handler, hc], by simp [lambda_handler, hc, htmlHeaders],
        by simp [lambda_handler, hc, htmlHeaders],
        by simp only [lambda_handler, if_neg hc]; exact generate_error_page_ne_empty _ _ _⟩
  | otherError msg =>
    exact ⟨by simp [lambda_handler], by simp [lambda_handler, htmlHeaders],
      by simp [lambda_handler, htmlHeaders],
      by simp only [lambda_handler]; exact generate_error_page_ne_empty _ _ _⟩

/-- C4 counterexample: for the configuration source that sets
`DOWNLOAD_EXPIRY` to `'one-hour'`, `int(...)` on line 28 raises outside the
`try` block, and the fault propagates to the caller instead of any
response. -/
theorem C4_counterexample :
    lambda_handler_env [("DOWNLOAD_EXPIRY", "one-hour")] ⟨none⟩
        ⟨ProbeOutcome.success, fun _ => SignOutcome.success "u"⟩ =
      Except.error "ValueError: invalid literal for int() with base 10: \x27one-hour\x27" ∧
    ∀ out : HandlerOutput,
      lambda_handler_env [("DOWNLOAD_EXPIRY", "one-hour")] ⟨none⟩
        ⟨ProbeOutcome.success, fun _ => SignOutcome.success "u"⟩ ≠ Except.ok out := by
  refine ⟨rfl, ?_⟩
  intro out h
  rw [show lambda_handler_env [("DOWNLOAD_EXPIRY", "one-hour")] ⟨none⟩
        ⟨ProbeOutcome.success, fun _ => SignOutcome.success "u"⟩ =
      Except.error "ValueError: invalid literal for int() with base 10: \x27one-hour\x27" from rfl] at h
  exact Except.noConfusion h

/-- C4 amended: for every event, every store behaviour, and every
configuration source whose `DOWNLOAD_EXPIRY` value parses as an integer,
the handler returns a fully populated response (status in
`{200, 404, 500}`, `Content-Type: text/html` present, nonempty headers and
body) and no fault propagates; a configuration source whose
`DOWNLOAD_EXPIRY` does not parse makes line 28 raise outside the `try`
block instead. -/
theorem C4_wellformed_when_config_parses (env : List (String × String))
    (event : Event) (store : Store) (n : Int)
    (hparse : pythonInt (osEnvironGet env "DOWNLOAD_EXPIRY" "3600") = some n) :
    ∃ out : HandlerOutput,
      lambda_handler_env env event store = Except.ok out ∧
      wellFormedResponse out.response := by
  have hcfg : resolveConfig env = some
      { BUCKET_NAME := osEnvironGet env "BUCKET_NAME" "secure-photo-downloads",
        OBJECT_KEY := osEnvironGet env "OBJECT_KEY" "photos/photos.zip",
        DOWNLOAD_EXPIRY := n,
        APP_NAME := osEnvironGet env "APP_NAME" "Secure Photo Downloader" } := by
    simp [resolveConfig, hparse]
  refine ⟨lambda_handler event
      { BUCKET_NAME := osEnvironGet env "BUCKET_NAME" "secure-photo-downloads",
        OBJECT_KEY := osEnvironGet env "OBJECT_KEY" "photos/photos.zip",
        DOWNLOAD_EXPIRY := n,
        APP_NAME := osEnvironGet env "APP_NAME" "Secure Photo Downloader" } store,
    ?_, lambda_handler_wellformed event _ store⟩
  simp [lambda_handler_env, hcfg]

/-- C4 amended witness: the empty environment parses (default `'3600'`) and
yields a well-formed 404 response for a not-found probe. -/
theorem C4_wellformed_when_config_parses_witness :
    ∃ out : HandlerOutput,
      lambda_handler_env [] ⟨none⟩
        ⟨ProbeOutcome.clientError "404" "m", fun _ => SignOutcome.success "u"⟩ = Except.ok out ∧
      wellFormedResponse out.response :=
  C4_wellformed_when_config_parses [] ⟨none⟩
    ⟨ProbeOutcome.clientError "404" "m", fun _ => SignOutcome.success "u"⟩ 3600 (by decide)

/-! ### Hours display (claim C8) -/

theorem fdiv_ofNat (m n : Nat) : Int.fdiv (Int.ofNat m) (Int.ofNat n) = Int.ofNat (m / n) := by
  cases m with
  | zero => rw [Nat.zero_div]; cases n <;> rfl
  | succ m => rfl

/-- For a positive expiry, the rendered hours fragment is the Nat floor
quotient with `" hour"` exactly when that quotient is 1. -/
theorem hoursHtml_of_pos (e : Int) (he : 0 < e) :
    hoursHtml (Int.fdiv e 3600) =
      "<strong>" ++ toString (e.toNat / 3600) ++
        (if e.toNat / 3600 = 1 then " hour" else " hours") ++ "</strong>" := by
  obtain ⟨n, rfl⟩ : ∃ n : Nat, e = Int.ofNat n := ⟨e.toNat, (Int.toNat_of_nonneg he.le).symm⟩
  have h1 : Int.fdiv (Int.ofNat n) 3600 = Int.ofNat (n / 3600) := fdiv_ofNat n 3600
  rw [h1]
  have h2 : (Int.ofNat n).toNat = n := rfl
  rw [h2]
  unfold hoursHtml pluralSuffix
  have h3 : toString (Int.ofNat (n / 3600)) = toString (n / 3600) := rfl
  rw [h3]
  by_cases hq : n / 3600 = 1
  · have hx : Int.ofNat (n / 3600) = 1 := by rw [hq]; rfl
    rw [hx, if_neg (not_not_intro rfl), if_pos hq, String.ext_iff]
    simp [String.data_append]
  · have hx : Int.ofNat (n / 3600) ≠ 1 := by
      intro hcontra
      rw [show (1 : Int) = Int.ofNat 1 from rfl] at hcontra
      exact hq (Int.ofNat.inj hcontra)
    rw [if_pos hx, if_neg hq, String.ext_iff]
    simp [String.data_append]

/-- C8: for every positive expiry, the success page displays
`expirySeconds // 3600` hours inside the security notice, with the unit
pluralized exactly when that quotient is not 1. -/
theorem C8_hours_display (download_url app_name object_key : String) (e : Int)
    (he : 0 < e) :
    ∃ p s : String,
      generate_download_page download_url e app_name object_key =
        p ++ ("<strong>" ++ toString (e.toNat / 3600) ++
          (if e.toNat / 3600 = 1 then " hour" else " hours") ++ "</strong>") ++ s := by
  refine ⟨dpA ++ app_name ++ dpB ++ metaRefreshTag download_url ++ dpC ++ app_name
      ++ dpD ++ file_name_of object_key ++ dpE ++ anchorTag download_url ++ dpF, dpG, ?_⟩
  have h := hoursHtml_of_pos e he
  rw [String.ext_iff]
  simp only [generate_download_page]
  rw [h]

/-- C8 witness: expiry 3600 renders `1 hour` (singular quotient 1) and
expiry 7200 renders `2 hours` (plural quotient 2). -/
theorem C8_hours_display_witness :
    ((0 : Int) < 3600 ∧ ∃ p s : String,
      generate_download_page "https://u" 3600 "App" "k" =
        p ++ ("<strong>" ++ toString ((3600 : Int).toNat / 3600) ++
          (if (3600 : Int).toNat / 3600 = 1 then " hour" else " hours") ++ "</strong>") ++ s) ∧
    ((0 : Int) < 7200 ∧ ∃ p s : String,
      generate_download_page "https://u" 7200 "App" "k" =
        p ++ ("<strong>" ++ toString ((7200 : Int).toNat / 3600) ++
          (if (7200 : Int).toNat / 3600 = 1 then " hour" else " hours") ++ "</strong>") ++ s) :=
  ⟨⟨by decide, C8_hours_display "https://u" "App" "k" 3600 (by decide)⟩,
   ⟨by decide, C8_hours_display "https://u" "App" "k" 7200 (by decide)⟩⟩

/-! ### Occurrence counting in the success page (claim C1) -/

/-- Number of positions of `l` (the final position included) at which `pat`
occurs as a prefix of the remaining suffix. -/
def occ (pat : List Char) : List Char → Nat
  | [] => if pat = [] then 1 else 0
  | c :: rest => (if pat <+: c :: rest then 1 else 0) + occ pat rest

theorem occ_cons_no_match (pat : List Char) (c : Char) (l : List Char)
    (h : ¬ pat <+: c :: l) : occ pat (c :: l) = occ pat l := by
  simp [occ, if_neg h]

theorem occ_append_not_head (h : Char) (t : List Char) (a b : List Char)
    (ha : h ∉ a) : occ (h :: t) (a ++ b) = occ (h :: t) b := by
  induction a with
  | nil => rfl
  | cons c a ih =>
    have hc : h ≠ c := fun e => ha (e ▸ List.mem_cons_self c a)
    have hpre : ¬ (h :: t <+: c :: (a ++ b)) := fun hp =>
      hc (List.cons_prefix_cons.mp hp).1
    rw [List.cons_append, occ_cons_no_match _ _ _ hpre]
    exact ih (fun m => ha (List.mem_cons_of_mem _ m))

theorem occ_zero_of_lt (u l : List Char) (hu : u ≠ []) (hl : l.length < u.length) :
    occ u l = 0 := by
  induction l with
  | nil => simp [occ, hu]
  | cons c rest ih =>
    have hpre : ¬ (u <+: c :: rest) := fun hp => by
      have := hp.length_le
      omega
    have hr : rest.length < u.length := by
      simp only [List.length_cons] at hl
      omega
    rw [occ_cons_no_match _ _ _ hpre]
    exact ih hr

theorem occ_starts_with_self (h : Char) (t b : List Char) :
    occ (h :: t) ((h :: t) ++ b) = 1 + occ (h :: t) (t ++ b) := by
  have hp : (h :: t) <+: (h :: t) ++ b := List.prefix_append _ _
  rw [List.cons_append]
  show (if (h :: t) <+: h :: (t ++ b) then 1 else 0) + occ (h :: t) (t ++ b) = _
  rw [if_pos (by rwa [List.cons_append] at hp)]

theorem occ_le_append (u a b : List Char) : occ u b ≤ occ u (a ++ b) := by
  induction a with
  | nil => exact Nat.le_refl _
  | cons c a ih =>
    rw [List.cons_append]
    calc occ u b ≤ occ u (a ++ b) := ih
    _ ≤ (if u <+: c :: (a ++ b) then 1 else 0) + occ u (a ++ b) := Nat.le_add_left _ _
    _ = occ u (c :: (a ++ b)) := rfl

/-- The pieces of the meta-refresh tag around its two `'h'` characters. -/
def mA : List Char := "<meta ".data

def mB : List Char := "ttp-equiv=\x22refres".data

def mC : List Char := "\x22 content=\x223;url=".data

def mD : List Char := "\x22>".data

theorem occ_meta_list (v : List Char) :
    occ ('h' :: 't' :: 't' :: 'p' :: 's' :: ':' :: '/' :: '/' ::v)
      (mA ++ 'h' :: (mB ++ 'h' :: (mC ++ (('h' :: 't' :: 't' :: 'p' :: 's' :: ':' :: '/' :: '/' ::v) ++ mD)))) = 1 := by
  have hmb : mB = 't' :: 't' :: 'p' :: '-' ::("equiv=\x22refres").data := by decide
  have hmc : mC = '\x22' ::(" content=\x223;url=").data := by decide
  rw [occ_append_not_head 'h' _ mA _ (by decide)]
  rw [occ_cons_no_match _ _ _ (by
    intro hp
    rw [hmb] at hp
    simp only [List.cons_append] at hp
    have h1 := (List.cons_prefix_cons.mp hp).2
    have h2 := (List.cons_prefix_cons.mp h1).2
    have h3 := (List.cons_prefix_cons.mp h2).2
    have h4 := (List.cons_prefix_cons.mp h3).2
    exact absurd (List.cons_prefix_cons.mp h4).1 (by decide))]
  rw [occ_append_not_head 'h' _ mB _ (by decide)]
  rw [occ_cons_no_match _ _ _ (by
    intro hp
    rw [hmc] at hp
    simp only [List.cons_append] at hp
    have h1 := (List.cons_prefix_cons.mp hp).2
    exact absurd (List.cons_prefix_cons.mp h1).1 (by decide))]
  rw [occ_append_not_head 'h' _ mC _ (by decide)]
  rw [occ_starts_with_self]
  have hz : occ ('h' :: 't' :: 't' :: 'p' :: 's' :: ':' :: '/' :: '/' ::v)
      (('t' :: 't' :: 'p' :: 's' :: ':' :: '/' :: '/' ::v) ++ mD) = 0 := by
    simp only [List.cons_append]
    rw [occ_cons_no_match _ _ _ (fun hp =>
      absurd (List.cons_prefix_cons.mp hp).1 (by decide))]
    rw [occ_cons_no_match _ _ _ (fun hp =>
      absurd (List.cons_prefix_cons.mp hp).1 (by decide))]
    refine occ_zero_of_lt _ _ (by simp) ?_
    have : mD.length = 2 := by decide
    simp [this]
  rw [hz]

/-- Inside the meta-refresh redirect directive, an `https://...` URL occurs
exactly once. -/
theorem occ_metaRefreshTag (url : String)
    (hurl : url.data.take 8 = ('h' :: 't' :: 't' :: 'p' :: 's' :: ':' :: '/' :: '/' ::[])) :
    occ url.data (metaRefreshTag url).data = 1 := by
  obtain ⟨v, hv⟩ : ∃ v, url.data = 'h' :: 't' :: 't' :: 'p' :: 's' :: ':' :: '/' :: '/' ::v := by
    refine ⟨url.data.drop 8, ?_⟩
    conv_lhs => rw [← List.take_append_drop 8 url.data, hurl]
    simp
  have hpre : ("<meta http-equiv=\x22refresh\x22 content=\x223;url=" : String).data
      = mA ++ 'h' :: (mB ++ 'h' :: mC) := by decide
  have htag : (metaRefreshTag url).data
      = mA ++ 'h' :: (mB ++ 'h' :: (mC ++ (url.data ++ mD))) := by
    show ((("<meta http-equiv=\x22refresh\x22 content=\x223;url=" : String) ++ url)
        ++ ("\x22>" : String)).data = _
    rw [String.data_append, String.data_append, hpre]
    have hd : ("\x22>" : String).data = mD := by decide
    rw [hd]
    simp [List.append_assoc]
  rw [htag, hv]
  exact occ_meta_list v

/-- Inside the visible download link, the URL occurs at least once. -/
theorem occ_anchorTag (url : String)
    (hurl : url.data.take 8 = ('h' :: 't' :: 't' :: 'p' :: 's' :: ':' :: '/' :: '/' ::[])) :
    1 ≤ occ url.data (anchorTag url).data := by
  obtain ⟨v, hv⟩ : ∃ v, url.data = 'h' :: 't' :: 't' :: 'p' :: 's' :: ':' :: '/' :: '/' ::v := by
    refine ⟨url.data.drop 8, ?_⟩
    conv_lhs => rw [← List.take_append_drop 8 url.data, hurl]
    simp
  have htag : (anchorTag url).data
      = ("<a href=\x22" : String).data ++ (url.data ++ ("\x22 class=\x22download-link\x22>" : String).data) := by
    show ((("<a href=\x22" : String) ++ url) ++ ("\x22 class=\x22download-link\x22>" : String)).data = _
    rw [String.data_append, String.data_append]
    simp [List.append_assoc]
  rw [htag, hv]
  calc (1 : Nat) ≤ occ ('h' :: 't' :: 't' :: 'p' :: 's' :: ':' :: '/' :: '/' ::v)
        (('h' :: 't' :: 't' :: 'p' :: 's' :: ':' :: '/' :: '/' ::v) ++ ("\x22 class=\x22download-link\x22>" : String).data) := by
        rw [occ_starts_with_self]
        exact Nat.le_add_right 1 _
    _ ≤ _ := occ_le_append _ _ _

theorem non200_headers (event : Event) (cfg : Config) (store : Store)
    (h : (lambda_handler event cfg store).response.statusCode ≠ 200) :
    (lambda_handler event cfg store).response.headers = htmlHeaders := by
  obtain ⟨probe, sign⟩ := store
  cases probe with
  | success =>
    cases hs : sign cfg.DOWNLOAD_EXPIRY with
    | success url => exact absurd (by simp [lambda_handler, hs]) h
    | clientError c m => simp [lambda_handler, hs]
    | otherError m => simp [lambda_handler, hs]
  | clientError c m => by_cases hc : c = "404" <;> simp [lambda_handler, hc]
  | otherError m => rfl

/-- C1: when the probe succeeds and signing returns an `https://` URL, the
response has status 200 with exactly the `Content-Type: text/html` header
and the three cache-suppression headers `Cache-Control: no-cache, no-store,
must-revalidate`, `Pragma: no-cache`, `Expires: 0`; the body embeds the
meta-refresh redirect directive and the visible download link built from
the signed URL, the URL occurring exactly once inside the redirect
directive and at least once inside the link; and no non-200 response
carries anything beyond the `Content-Type` header. -/
theorem C1_success_response (event : Event) (cfg : Config) (store : Store) (url : String)
    (hp : store.headObject = ProbeOutcome.success)
    (hs : store.generatePresignedUrl cfg.DOWNLOAD_EXPIRY = SignOutcome.success url)
    (hurl : url.data.take 8 = ('h' :: 't' :: 't' :: 'p' :: 's' :: ':' :: '/' :: '/' ::[])) :
    (lambda_handler event cfg store).response.statusCode = 200 ∧
    (lambda_handler event cfg store).response.headers = successHeaders ∧
    (∃ p q s : String,
      (lambda_handler event cfg store).response.body
        = p ++ metaRefreshTag url ++ q ++ anchorTag url ++ s) ∧
    occ url.data (metaRefreshTag url).data = 1 ∧
    1 ≤ occ url.data (anchorTag url).data ∧
    (∀ (event2 : Event) (cfg2 : Config) (store2 : Store),
      (lambda_handler event2 cfg2 store2).response.statusCode ≠ 200 →
      (lambda_handler event2 cfg2 store2).response.headers = htmlHeaders) := by
  obtain ⟨probe, sign⟩ := store
  change probe = _ at hp
  change sign _ = _ at hs
  subst hp
  refine ⟨by simp [lambda_handler, hs], by simp [lambda_handler, hs], ?_,
    occ_metaRefreshTag url hurl, occ_anchorTag url hurl, non200_headers⟩
  refine ⟨dpA ++ cfg.APP_NAME ++ dpB,
    dpC ++ cfg.APP_NAME ++ dpD ++ file_name_of cfg.OBJECT_KEY ++ dpE,
    dpF ++ hoursHtml (Int.fdiv cfg.DOWNLOAD_EXPIRY 3600) ++ dpG, ?_⟩
  have hb : (lambda_handler event cfg ⟨ProbeOutcome.success, sign⟩).response.body =
      generate_download_page url cfg.DOWNLOAD_EXPIRY cfg.APP_NAME cfg.OBJECT_KEY := by
    simp [lambda_handler, hs]
  rw [hb, String.ext_iff]
  simp [generate_download_page, String.data_append]

/-- C1 witness: the concrete end-to-end success invocation with signed URL
`https://signed/url`. -/
theorem C1_success_response_witness :
    (lambda_handler ⟨none⟩ ⟨"b", "photos/x.zip", 3600, "App"⟩
      ⟨ProbeOutcome.success, fun _ => SignOutcome.success "https://signed/url"⟩).response.statusCode = 200 ∧
    (lambda_handler ⟨none⟩ ⟨"b", "photos/x.zip", 3600, "App"⟩
      ⟨ProbeOutcome.success, fun _ => SignOutcome.success "https://signed/url"⟩).response.headers = successHeaders ∧
    (∃ p q s : String,
      (lambda_handler ⟨none⟩ ⟨"b", "photos/x.zip", 3600, "App"⟩
        ⟨ProbeOutcome.success, fun _ => SignOutcome.success "https://signed/url"⟩).response.body
        = p ++ metaRefreshTag "https://signed/url" ++ q ++ anchorTag "https://signed/url" ++ s) ∧
    occ ("https://signed/url" : String).data (metaRefreshTag "https://signed/url").data = 1 ∧
    1 ≤ occ ("https://signed/url" : String).data (anchorTag "https://signed/url").data ∧
    (∀ (event2 : Event) (cfg2 : Config) (store2 : Store),
      (lambda_handler event2 cfg2 store2).response.statusCode ≠ 200 →
      (lambda_handler event2 cfg2 store2).response.headers = htmlHeaders) :=
  C1_success_response ⟨none⟩ ⟨"b", "photos/x.zip", 3600, "App"⟩
    ⟨ProbeOutcome.success, fun _ => SignOutcome.success "https://signed/url"⟩
    "https://signed/url" rfl rfl (by decide)
